import Mathlib

/-!
Shallow embedding of the LoRA adapter loading subsystem of
`src/models/lora_adapter.cpp` (namespace `Generators`), together with
theorems settling the specification's claims about it.

The embedding follows the source line by line:
* `CreateEmptyInput` (lines 24-45) — placeholder synthesis;
* `BinaryFormatHolder.Load` (lines 47-78) — file read plus the three
  validation steps (magic, schema verification, version), instrumented
  with a trace of which validation steps were evaluated;
* `MakeDeviceCopyIfNeeded` (lines 84-110) — device materialisation;
* `LoraAdapter.LoadParametersFromFlatBuffer` (lines 112-124) — parameter
  extraction and atomic swap of the adapter's parameter list;
* `LoadAdaptersFromConfig` (lines 128-141) — bulk registry load with
  within-batch duplicate detection and wholesale swap, instrumented with
  the list of files for which a load was actually attempted.

Code of the repository that is not under `src/` (the flatbuffers helpers,
`CopyToDevice`, the registry's `Get`) is modelled from the spec; each such
definition carries a doc comment starting `Modelled from the spec:`.
-/

deriving instance DecidableEq for Except

namespace Generators

/-- Target compute device of a model (the runtime's `DeviceType` enum).
The source file distinguishes `CPU`, `CUDA` and everything else; `DML` and
`WEBGPU` stand for the other accelerator backends. -/
inductive DeviceType
  | CPU
  | CUDA
  | DML
  | WEBGPU
deriving DecidableEq

/-- Device residency class reported by a tensor's memory info
(`OrtMemoryInfoDeviceType` of the ORT C API). -/
inductive OrtMemoryInfoDeviceType
  | CPU
  | GPU
  | FPGA
deriving DecidableEq

/-- Modelled from the spec: the residency class an accelerator target expects
its tensors on. The source itself equates the `CUDA` target with the `GPU`
residency class (lora_adapter.cpp lines 95-96); the spec's design notes treat
"GPU" as a single device class shared by all accelerator backends. -/
def DeviceType.deviceClass : DeviceType → OrtMemoryInfoDeviceType
  | .CPU => .CPU
  | _ => .GPU

/-- The spec's error taxonomy. Each constructor corresponds to one
`throw std::runtime_error` site of the source. `UnsupportedDevicePlacement`
carries the device whose integer value the source's message stringifies,
which is `model.device_type_` (lora_adapter.cpp lines 101-102). -/
inductive LoraError
  | IOError
  | InvalidFormat
  | CorruptData
  | UnsupportedVersion
  | InvalidShape
  | UnsupportedDevicePlacement (named : DeviceType)
  | DuplicateAdapterName (name : String)
  | UnknownAdapter
deriving DecidableEq

/-- A runtime tensor (`OrtValue`): residency, element type (as the numeric
value of the ONNX element-type enum), shape (`GetShape` returns `int64_t`
dimensions) and backing bytes. -/
structure TensorValue where
  device : OrtMemoryInfoDeviceType
  elemType : Nat
  shape : List Int
  data : List Nat
deriving DecidableEq

/-- The C cast `(size_t)` applied to an `int64_t` dimension: reduction
modulo 2^64, as in `const size_t last_dim = shape[num_dims - 1];`. -/
def toSizeT (i : Int) : Nat := (i % (2 ^ 64 : Int)).toNat

/-- Total element count of a shape: the product of its dimension sizes. -/
def elementCount (shape : List Int) : Nat := (shape.map toSizeT).prod

/-- `details::CreateEmptyInput` (lora_adapter.cpp lines 24-45): reject rank
below 2, then compare the last two dimensions as `size_t` and zero the last
dimension when it is strictly smaller than the second-to-last, otherwise the
second-to-last. The result is a tensor on the model's allocator device with
the modified shape, the original element type, and no data (it is backed by
the zero-length static `empty_input_buf`). -/
def CreateEmptyInput (model_device : DeviceType) (original : TensorValue) :
    Except LoraError TensorValue :=
  let shape := original.shape
  let num_dims := shape.length
  if num_dims < 2 then
    .error .InvalidShape
  else
    let last_dim := toSizeT (shape.getD (num_dims - 1) 0)
    let penal_dim := toSizeT (shape.getD (num_dims - 2) 0)
    let shape' :=
      if last_dim < penal_dim then shape.set (num_dims - 1) 0
      else shape.set (num_dims - 2) 0
    .ok { device := model_device.deviceClass, elemType := original.elemType,
          shape := shape', data := [] }

/-- One serialized parameter record of the container file
(`lora_parameters::Param`): name, element type, shape, raw bytes. -/
structure ParameterRecord where
  name : String
  elemType : Nat
  shape : List Int
  data : List Nat
deriving DecidableEq

/-- Abstraction of one on-disk adapter file, at the level the source
observes it: whether the stream opens and reads cleanly, the outcome of the
magic-identifier check (`IsGenAiLoraFormatModelBytes`) and of the flatbuffers
schema verification (`VerifyParametersBuffer`), the stored format version,
and the parameter records the parsed view exposes. -/
structure LoraFile where
  openOk : Bool
  readOk : Bool
  magicOk : Bool
  schemaOk : Bool
  version : Nat
  records : List ParameterRecord
deriving DecidableEq

/-- Modelled from the spec: `IsLoraFormatVersionSupported` (flatbuffers
helpers, not under `src/`) accepts exactly the versions inside a statically
declared range; the current range is the single version 1. -/
def IsLoraFormatVersionSupported (v : Nat) : Bool := 1 ≤ v && v ≤ 1

/-- A validation step of `BinaryFormatHolder::Load`, recorded in the order
the steps are evaluated. -/
inductive CheckStep
  | magic
  | schema
  | version
deriving DecidableEq

/-- `details::BinaryFormatHolder`: owns the raw byte buffer (`buffer_`) and,
once parsed, the view over it (`parameters_`, here the version together with
the record list the view exposes). -/
structure BinaryFormatHolder where
  buffer_ : Option LoraFile
  parameters_ : Option (Nat × List ParameterRecord)
deriving DecidableEq

/-- `BinaryFormatHolder::Load` (lora_adapter.cpp lines 47-78): open and read
the file (each failure is an `IOError`), then, in order, the magic check
(`InvalidFormat`), the schema verification (`CorruptData`), and — after
`GetParameters` has installed the view — the version check
(`UnsupportedVersion`). Besides the mutated holder and the error outcome,
the embedding returns the list of validation steps that were evaluated. -/
def BinaryFormatHolder.Load (h : BinaryFormatHolder) (file : LoraFile) :
    BinaryFormatHolder × Option LoraError × List CheckStep :=
  if !file.openOk then (h, some .IOError, [])
  else
    let h1 : BinaryFormatHolder := { h with buffer_ := some file }
    if !file.readOk then (h1, some .IOError, [])
    else if !file.magicOk then (h1, some .InvalidFormat, [.magic])
    else if !file.schemaOk then (h1, some .CorruptData, [.magic, .schema])
    else
      let h2 : BinaryFormatHolder :=
        { h1 with parameters_ := some (file.version, file.records) }
      if !IsLoraFormatVersionSupported file.version then
        (h2, some .UnsupportedVersion, [.magic, .schema, .version])
      else (h2, none, [.magic, .schema, .version])

/-- `details::LoraParam` (lora_adapter.cpp lines 80-82): a named parameter
holding the tensor produced for it. -/
structure LoraParam where
  name_ : String
  ort_user_supplied_value_ : TensorValue
deriving DecidableEq

/-- Modelled from the spec: `CreateOrtValueOverFlatBufferLoraParameter`
(flatbuffers helpers, not under `src/`) turns one record into a `(name,
tensor)` pair whose host-resident tensor carries the record's shape, element
type and bytes bit-identically, and fails with `InvalidShape` when the
record's rank is below 2. -/
def extractRecord (r : ParameterRecord) : Except LoraError LoraParam :=
  if r.shape.length < 2 then .error .InvalidShape
  else
    .ok { name_ := r.name,
          ort_user_supplied_value_ :=
            { device := .CPU, elemType := r.elemType,
              shape := r.shape, data := r.data } }

/-- The extraction loop of `LoadParametersFromFlatBuffer` (lora_adapter.cpp
lines 119-122): convert the records one by one, stopping at the first
failure. -/
def extractAll : List ParameterRecord → Except LoraError (List LoraParam)
  | [] => .ok []
  | r :: rest =>
    match extractRecord r with
    | .error e => .error e
    | .ok p =>
      match extractAll rest with
      | .error e => .error e
      | .ok ps => .ok (p :: ps)

/-- `details::LoraAdapter`: name, owned format holder, parameter list. -/
structure LoraAdapter where
  name_ : String
  format_holder_ : BinaryFormatHolder
  parameters_ : List LoraParam
deriving DecidableEq

/-- `LoraAdapter::LoadParametersFromFlatBuffer` (lora_adapter.cpp lines
112-124): run `format_holder_.Load`, extract every record of the parsed view
into a local list, and only then swap that list into `parameters_`. A
failure anywhere leaves `parameters_` untouched (the local list is
discarded); the holder keeps whatever state `Load` left it in. -/
def LoraAdapter.LoadParametersFromFlatBuffer (a : LoraAdapter) (file : LoraFile) :
    LoraAdapter × Option LoraError :=
  let r := a.format_holder_.Load file
  match r.2.1 with
  | some e => ({ a with format_holder_ := r.1 }, some e)
  | none =>
    match extractAll ((r.1.parameters_.map Prod.snd).getD []) with
    | .error e => ({ a with format_holder_ := r.1 }, some e)
    | .ok ps => ({ a with format_holder_ := r.1, parameters_ := ps }, none)

/-- Outcome of `MakeDeviceCopyIfNeeded`: either the supplied tensor instance
itself (the `shared_ptr` is reused) or a freshly allocated copy. -/
inductive ResolveResult
  | reused (t : TensorValue)
  | copied (t : TensorValue)
deriving DecidableEq

/-- Modelled from the spec: `CopyToDevice` (not under `src/`) allocates a
destination tensor on the target device's residency class and copies the
bytes host-to-device, bit-identically. -/
def CopyToDevice (v : TensorValue) (target : DeviceType) : TensorValue :=
  { v with device := target.deviceClass }

/-- `details::MakeDeviceCopyIfNeeded` (lora_adapter.cpp lines 84-110): on a
CPU target, return the supplied tensor unchanged; on an accelerator target,
reuse the supplied tensor when the target is `CUDA` and the tensor is
GPU-resident, fail with `UnsupportedDevicePlacement` (whose message names
`model.device_type_`) when the tensor is resident on any device class other
than CPU, and otherwise copy the host-resident tensor to the device. -/
def MakeDeviceCopyIfNeeded (model_device : DeviceType) (param : LoraParam) :
    Except LoraError ResolveResult :=
  let src_value := param.ort_user_supplied_value_
  if model_device ≠ DeviceType.CPU then
    let src_device := src_value.device
    if model_device = DeviceType.CUDA ∧ src_device = OrtMemoryInfoDeviceType.GPU then
      .ok (.reused src_value)
    else if src_device ≠ OrtMemoryInfoDeviceType.CPU then
      .error (.UnsupportedDevicePlacement model_device)
    else
      .ok (.copied (CopyToDevice src_value model_device))
  else
    .ok (.reused src_value)

/-- The registry's name-to-adapter map (`AdapterMap`), as an association
list in insertion order. -/
abbrev AdapterMap := List (String × LoraAdapter)

/-- `adapters.find(name)`: first mapping for the name, if any. -/
def lookupAdapter (m : AdapterMap) (n : String) : Option LoraAdapter :=
  (m.find? (fun p => p.1 == n)).map Prod.snd

/-- A default-constructed adapter after `SetName` (lora_adapter.cpp lines
135-136). -/
def freshAdapter (name : String) : LoraAdapter :=
  { name_ := name, format_holder_ := { buffer_ := none, parameters_ := none },
    parameters_ := [] }

/-- The loop body of `LoadAdaptersFromConfig` (lora_adapter.cpp lines
130-139), building the local `adapters` map: for each config entry, fail
with `DuplicateAdapterName` if the name is already in the local map
(before any file access for that entry), otherwise default-construct the
adapter, set its name, and load its file, propagating any load failure.
The third component records the files for which a load was attempted. -/
def loadLoop (acc : AdapterMap) :
    List (String × LoraFile) → AdapterMap × Option LoraError × List LoraFile
  | [] => (acc, none, [])
  | (adapter_name, file) :: rest =>
    if (lookupAdapter acc adapter_name).isSome then
      (acc, some (.DuplicateAdapterName adapter_name), [])
    else
      let r := (freshAdapter adapter_name).LoadParametersFromFlatBuffer file
      match r.2 with
      | some e => (acc, some e, [file])
      | none =>
        let q := loadLoop (acc ++ [(adapter_name, r.1)]) rest
        (q.1, q.2.1, file :: q.2.2)

/-- `LoraAdapterContainer::LoadAdaptersFromConfig` (lora_adapter.cpp lines
128-141): build the local map with `loadLoop`; on clean completion swap it
into `adapters_` wholesale, on any failure leave `adapters_` exactly as it
was (the exception propagates before the swap). -/
def LoadAdaptersFromConfig (adapters_ : AdapterMap)
    (config : List (String × LoraFile)) :
    AdapterMap × Option LoraError × List LoraFile :=
  match loadLoop [] config with
  | (m, none, tr) => (m, none, tr)
  | (_, some e, tr) => (adapters_, some e, tr)

/-- Modelled from the spec: the registry's `Get(name)` (not under `src/`)
returns the adapter registered under the name and fails with
`UnknownAdapter` when the name is absent. -/
def GetAdapter (m : AdapterMap) (n : String) : Except LoraError LoraAdapter :=
  match lookupAdapter m n with
  | some a => .ok a
  | none => .error .UnknownAdapter

/-- A record is usable downstream when its rank is at least 2. -/
def recordShapeOk (r : ParameterRecord) : Bool := decide (2 ≤ r.shape.length)

/-- A file on which `LoadParametersFromFlatBuffer` succeeds: it opens and
reads cleanly, passes all three validation steps, and every record has rank
at least 2. -/
def fileLoadOk (f : LoraFile) : Bool :=
  f.openOk && f.readOk && f.magicOk && f.schemaOk &&
    IsLoraFormatVersionSupported f.version && f.records.all recordShapeOk

/-- The adapter produced for one successful config entry. -/
def loadedAdapter (n : String) (f : LoraFile) : LoraAdapter :=
  ((freshAdapter n).LoadParametersFromFlatBuffer f).1

/-- The parameter list a clean extraction produces: one parameter per
record, in record order, carrying name, element type, shape and bytes. -/
def expectedParams (rs : List ParameterRecord) : List LoraParam :=
  rs.map fun r =>
    { name_ := r.name,
      ort_user_supplied_value_ :=
        { device := .CPU, elemType := r.elemType, shape := r.shape,
          data := r.data } }

/-- A concrete well-formed parameter record of rank 2. -/
def sampleRecord : ParameterRecord :=
  { name := "p", elemType := 1, shape := [2, 3], data := [1, 2, 3] }

/-- A concrete parameter record of rank 1 (below the minimum rank). -/
def RREC1 : ParameterRecord :=
  { name := "q", elemType := 1, shape := [5], data := [0] }

/-- A concrete adapter file that loads cleanly. -/
def FGOOD : LoraFile :=
  { openOk := true, readOk := true, magicOk := true, schemaOk := true,
    version := 1, records := [sampleRecord] }

/-- A second concrete adapter file that loads cleanly. -/
def FGOOD2 : LoraFile :=
  { openOk := true, readOk := true, magicOk := true, schemaOk := true,
    version := 1, records := [] }

/-- A concrete file that opens and reads but fails the magic check; it would
also fail the schema verification if that step were reached. -/
def FBADMAGIC : LoraFile :=
  { openOk := true, readOk := true, magicOk := false, schemaOk := false,
    version := 0, records := [] }

/-- A concrete file that passes every format check but declares a rank-1
parameter record. -/
def FRANK1 : LoraFile :=
  { openOk := true, readOk := true, magicOk := true, schemaOk := true,
    version := 1, records := [RREC1] }

/-- A freshly constructed, empty format holder. -/
def H0 : BinaryFormatHolder := { buffer_ := none, parameters_ := none }

/-- A concrete adapter that already holds one parameter from a prior load. -/
def A1 : LoraAdapter :=
  { name_ := "a", format_holder_ := H0,
    parameters_ :=
      [{ name_ := "old",
         ort_user_supplied_value_ :=
           { device := .CPU, elemType := 1, shape := [2, 2], data := [9] } }] }

/-- A registry that already contains an adapter named "n". -/
def REG1 : AdapterMap := [("n", freshAdapter "n")]

/-- A registry that already contains an adapter named "old". -/
def REGOLD : AdapterMap := [("old", freshAdapter "old")]

/-- A parameter whose tensor resides on the FPGA device class. -/
def PFPGA : LoraParam :=
  { name_ := "w",
    ort_user_supplied_value_ :=
      { device := .FPGA, elemType := 1, shape := [2, 2], data := [7] } }

/-- A parameter whose tensor resides on the GPU device class. -/
def PGPU : LoraParam :=
  { name_ := "w",
    ort_user_supplied_value_ :=
      { device := .GPU, elemType := 1, shape := [2, 2], data := [7] } }

/-- A parameter whose tensor is host-resident. -/
def PHOST : LoraParam :=
  { name_ := "w",
    ort_user_supplied_value_ :=
      { device := .CPU, elemType := 1, shape := [2, 2], data := [7] } }

/-- A concrete reference tensor of shape [8, 4]. -/
def T84 : TensorValue :=
  { device := .CPU, elemType := 7, shape := [8, 4], data := [] }

lemma extractAll_ok_all (rs : List ParameterRecord)
    (h : ∀ r ∈ rs, recordShapeOk r = true) :
    extractAll rs = .ok (expectedParams rs) := by
  induction rs with
  | nil => rfl
  | cons a rest ih =>
    have ha : ¬ a.shape.length < 2 := by
      have := h a (by simp)
      simpa [recordShapeOk, Nat.not_lt] using this
    have hrest := ih (fun r hr => h r (List.mem_cons_of_mem _ hr))
    simp [extractAll, extractRecord, ha, hrest, expectedParams]

lemma extractAll_error_of_mem (rs : List ParameterRecord) (r : ParameterRecord)
    (hmem : r ∈ rs) (hlt : r.shape.length < 2) :
    extractAll rs = .error .InvalidShape := by
  induction rs with
  | nil => cases hmem
  | cons a rest ih =>
    rcases List.mem_cons.mp hmem with h | h
    · subst h
      simp [extractAll, extractRecord, hlt]
    · by_cases ha : a.shape.length < 2
      · simp [extractAll, extractRecord, ha]
      · simp [extractAll, extractRecord, ha, ih h]

lemma Load_open_fail (h : BinaryFormatHolder) (f : LoraFile)
    (h1 : f.openOk = false) :
    h.Load f = (h, some .IOError, []) := by
  simp [BinaryFormatHolder.Load, h1]

lemma Load_read_fail (h : BinaryFormatHolder) (f : LoraFile)
    (h1 : f.openOk = true) (h2 : f.readOk = false) :
    h.Load f = ({ h with buffer_ := some f }, some .IOError, []) := by
  simp [BinaryFormatHolder.Load, h1, h2]

lemma Load_magic_fail (h : BinaryFormatHolder) (f : LoraFile)
    (h1 : f.openOk = true) (h2 : f.readOk = true) (h3 : f.magicOk = false) :
    h.Load f = ({ h with buffer_ := some f }, some .InvalidFormat, [.magic]) := by
  simp [BinaryFormatHolder.Load, h1, h2, h3]

lemma Load_schema_fail (h : BinaryFormatHolder) (f : LoraFile)
    (h1 : f.openOk = true) (h2 : f.readOk = true) (h3 : f.magicOk = true)
    (h4 : f.schemaOk = false) :
    h.Load f = ({ h with buffer_ := some f }, some .CorruptData, [.magic, .schema]) := by
  simp [BinaryFormatHolder.Load, h1, h2, h3, h4]

lemma Load_version_fail (h : BinaryFormatHolder) (f : LoraFile)
    (h1 : f.openOk = true) (h2 : f.readOk = true) (h3 : f.magicOk = true)
    (h4 : f.schemaOk = true) (h5 : IsLoraFormatVersionSupported f.version = false) :
    h.Load f = ({ h with
                  buffer_ := some f,
                  parameters_ := some (f.version, f.records) },
                some .UnsupportedVersion, [.magic, .schema, .version]) := by
  simp [BinaryFormatHolder.Load, h1, h2, h3, h4, h5]

lemma Load_ok (h : BinaryFormatHolder) (f : LoraFile)
    (h1 : f.openOk = true) (h2 : f.readOk = true) (h3 : f.magicOk = true)
    (h4 : f.schemaOk = true) (h5 : IsLoraFormatVersionSupported f.version = true) :
    h.Load f = ({ h with
                  buffer_ := some f,
                  parameters_ := some (f.version, f.records) },
                none, [.magic, .schema, .version]) := by
  simp [BinaryFormatHolder.Load, h1, h2, h3, h4, h5]

lemma lpffb_ok (a : LoraAdapter) (f : LoraFile) (hf : fileLoadOk f = true) :
    a.LoadParametersFromFlatBuffer f =
      ({ a with
         format_holder_ :=
           { a.format_holder_ with
             buffer_ := some f,
             parameters_ := some (f.version, f.records) },
         parameters_ := expectedParams f.records }, none) := by
  have hs := hf
  simp only [fileLoadOk, Bool.and_eq_true, List.all_eq_true] at hs
  obtain ⟨⟨⟨⟨⟨h1, h2⟩, h3⟩, h4⟩, h5⟩, h6⟩ := hs
  unfold LoraAdapter.LoadParametersFromFlatBuffer
  rw [Load_ok a.format_holder_ f h1 h2 h3 h4 h5]
  simp [extractAll_ok_all f.records h6]

lemma lpffb_cases (a : LoraAdapter) (f : LoraFile) :
    ((a.LoadParametersFromFlatBuffer f).2 ≠ none ∧
      ((a.LoadParametersFromFlatBuffer f).1).parameters_ = a.parameters_) ∨
    ((a.LoadParametersFromFlatBuffer f).2 = none ∧
      extractAll f.records = .ok (((a.LoadParametersFromFlatBuffer f).1).parameters_)) := by
  unfold LoraAdapter.LoadParametersFromFlatBuffer
  cases h1 : f.openOk
  · rw [Load_open_fail _ f h1]
    simp
  · cases h2 : f.readOk
    · rw [Load_read_fail _ f h1 h2]
      simp
    · cases h3 : f.magicOk
      · rw [Load_magic_fail _ f h1 h2 h3]
        simp
      · cases h4 : f.schemaOk
        · rw [Load_schema_fail _ f h1 h2 h3 h4]
          simp
        · cases h5 : IsLoraFormatVersionSupported f.version
          · rw [Load_version_fail _ f h1 h2 h3 h4 h5]
            simp
          · rw [Load_ok _ f h1 h2 h3 h4 h5]
            cases hX : extractAll f.records
            · simp [hX]
            · simp [hX]

lemma lookupAdapter_eq_none_iff (m : AdapterMap) (n : String) :
    lookupAdapter m n = none ↔ n ∉ m.map Prod.fst := by
  simp [lookupAdapter, List.find?_eq_none, List.mem_map]
  aesop

lemma lookupAdapter_isSome_iff (m : AdapterMap) (n : String) :
    (lookupAdapter m n).isSome = true ↔ n ∈ m.map Prod.fst := by
  simp [lookupAdapter, List.find?_isSome, List.mem_map]

lemma loadLoop_ok : ∀ (cfg : List (String × LoraFile)) (acc : AdapterMap),
    (∀ p ∈ cfg, fileLoadOk p.2 = true) →
    (cfg.map Prod.fst).Nodup →
    (∀ p ∈ cfg, lookupAdapter acc p.1 = none) →
    loadLoop acc cfg =
      (acc ++ cfg.map (fun p => (p.1, loadedAdapter p.1 p.2)), none,
        cfg.map Prod.snd)
  | [], acc, _, _, _ => by simp [loadLoop]
  | (n, f) :: rest, acc, hfiles, hnodup, hdisj => by
    have hlk : lookupAdapter acc n = none := hdisj (n, f) (by simp)
    have hfl : fileLoadOk f = true := hfiles (n, f) (by simp)
    have hload := lpffb_ok (freshAdapter n) f hfl
    have hnodup2 : n ∉ rest.map Prod.fst ∧ (rest.map Prod.fst).Nodup := by
      simpa [List.nodup_cons] using hnodup
    have hnodup' := hnodup2.2
    have hnotin := hnodup2.1
    have hdisj' : ∀ p ∈ rest,
        lookupAdapter (acc ++ [(n, loadedAdapter n f)]) p.1 = none := by
      intro p hp
      rw [lookupAdapter_eq_none_iff]
      simp only [List.map_append, List.mem_append]
      rintro (hin | hin)
      · exact (lookupAdapter_eq_none_iff acc p.1).mp
          (hdisj p (List.mem_cons_of_mem _ hp)) hin
      · simp only [List.map_cons, List.map_nil, List.mem_singleton] at hin
        exact hnotin (hin ▸ List.mem_map_of_mem Prod.fst hp)
    have ih := loadLoop_ok rest (acc ++ [(n, loadedAdapter n f)])
      (fun p hp => hfiles p (List.mem_cons_of_mem _ hp)) hnodup' hdisj'
    simp only [loadLoop, hlk, Option.isSome_none, Bool.false_eq_true, if_false,
      loadedAdapter, hload, List.append_eq] at ih ⊢
    rw [ih]
    simp [hload]

lemma loadLoop_dup : ∀ (xs : List (String × LoraFile)) (acc : AdapterMap)
    (n : String) (f : LoraFile) (ys : List (String × LoraFile)),
    (∀ p ∈ xs, fileLoadOk p.2 = true) →
    (xs.map Prod.fst).Nodup →
    (∀ p ∈ xs, lookupAdapter acc p.1 = none) →
    n ∈ acc.map Prod.fst ++ xs.map Prod.fst →
    (loadLoop acc (xs ++ (n, f) :: ys)).2.1 = some (.DuplicateAdapterName n) ∧
    (loadLoop acc (xs ++ (n, f) :: ys)).2.2 = xs.map Prod.snd
  | [], acc, n, f, ys, _, _, _, hmem => by
    have hmem' : n ∈ acc.map Prod.fst := by simpa using hmem
    have hsome : (lookupAdapter acc n).isSome = true :=
      (lookupAdapter_isSome_iff acc n).mpr hmem'
    simp [loadLoop, hsome]
  | (n0, f0) :: xs, acc, n, f, ys, hfiles, hnodup, hdisj, hmem => by
    have hlk : lookupAdapter acc n0 = none := hdisj (n0, f0) (by simp)
    have hfl : fileLoadOk f0 = true := hfiles (n0, f0) (by simp)
    have hload := lpffb_ok (freshAdapter n0) f0 hfl
    have hnodup2 : n0 ∉ xs.map Prod.fst ∧ (xs.map Prod.fst).Nodup := by
      simpa [List.nodup_cons] using hnodup
    have hnodup' := hnodup2.2
    have hnotin := hnodup2.1
    have hdisj' : ∀ p ∈ xs,
        lookupAdapter (acc ++ [(n0, loadedAdapter n0 f0)]) p.1 = none := by
      intro p hp
      rw [lookupAdapter_eq_none_iff]
      simp only [List.map_append, List.mem_append]
      rintro (hin | hin)
      · exact (lookupAdapter_eq_none_iff acc p.1).mp
          (hdisj p (List.mem_cons_of_mem _ hp)) hin
      · simp only [List.map_cons, List.map_nil, List.mem_singleton] at hin
        exact hnotin (hin ▸ List.mem_map_of_mem Prod.fst hp)
    have hmem' : n ∈ (acc ++ [(n0, loadedAdapter n0 f0)]).map Prod.fst
        ++ xs.map Prod.fst := by
      simp only [List.map_append, List.map_cons, List.map_nil, List.mem_append,
        List.mem_cons, List.mem_singleton, List.not_mem_nil, or_false] at hmem ⊢
      tauto
    have ih := loadLoop_dup xs (acc ++ [(n0, loadedAdapter n0 f0)]) n f ys
      (fun p hp => hfiles p (List.mem_cons_of_mem _ hp)) hnodup' hdisj' hmem'
    simp only [List.cons_append, loadLoop, hlk, Option.isSome_none,
      Bool.false_eq_true, if_false, loadedAdapter, hload, List.append_eq] at ih ⊢
    exact ⟨ih.1, by rw [ih.2]; simp⟩

lemma toSizeT_lt_iff {a b : Int} (ha : 0 ≤ a) (ha2 : a < 2 ^ 64)
    (hb : 0 ≤ b) (hb2 : b < 2 ^ 64) : toSizeT a < toSizeT b ↔ a < b := by
  unfold toSizeT
  rw [Int.emod_eq_of_lt ha ha2, Int.emod_eq_of_lt hb hb2]
  omega

lemma getD_mem_of_lt : ∀ (l : List Int) (i : Nat), i < l.length → l.getD i 0 ∈ l
  | [], i, h => by simp at h
  | a :: l, 0, _ => by simp
  | a :: l, i + 1, h => by
    simpa using List.mem_cons_of_mem a (getD_mem_of_lt l i (by simpa using h))

lemma elementCount_set_zero : ∀ (l : List Int) (i : Nat), i < l.length →
    elementCount (l.set i 0) = 0
  | [], i, h => by simp at h
  | a :: l, 0, _ => by simp [elementCount, toSizeT]
  | a :: l, i + 1, h => by
    have ih := elementCount_set_zero l i (by simpa using h)
    show toSizeT a * elementCount (l.set i 0) = 0
    rw [ih, mul_zero]

/-- C1 (counterexample): on the equal-dims reference shape [4, 4],
`CreateEmptyInput` zeroes the second-to-last dimension and yields [0, 4],
not the [4, 0] the claim states (the tie is broken toward the
second-to-last dimension, not the last). -/
theorem C1_counterexample :
    CreateEmptyInput DeviceType.CPU
        { device := .CPU, elemType := 3, shape := [4, 4], data := [] }
      = .ok { device := .CPU, elemType := 3, shape := [0, 4], data := [] }
    ∧ ([0, 4] : List Int) ≠ [4, 0] := by
  decide

/-- C1 (amended): for every reference tensor of rank at least 2 whose
dimensions are non-negative `int64` values, `CreateEmptyInput` returns a
tensor of the same rank and element type with total element count 0,
obtained by zeroing whichever of the last two dimensions is smaller, with
ties broken toward the SECOND-TO-LAST dimension: [8, 4] yields [8, 0],
[4, 8] yields [0, 8], and [4, 4] yields [0, 4]. -/
theorem C1_synthesize_empty_amended (md : DeviceType) (t : TensorValue)
    (hrank : 2 ≤ t.shape.length)
    (hdims : ∀ d ∈ t.shape, 0 ≤ d ∧ d < 2 ^ 64) :
    ∃ t', CreateEmptyInput md t = .ok t'
      ∧ t'.shape.length = t.shape.length
      ∧ t'.elemType = t.elemType
      ∧ elementCount t'.shape = 0
      ∧ t'.shape =
        (if t.shape.getD (t.shape.length - 1) 0
            < t.shape.getD (t.shape.length - 2) 0
         then t.shape.set (t.shape.length - 1) 0
         else t.shape.set (t.shape.length - 2) 0) := by
  have hlen : ¬ t.shape.length < 2 := by omega
  have h1m : t.shape.length - 1 < t.shape.length := by omega
  have h2m : t.shape.length - 2 < t.shape.length := by omega
  obtain ⟨ha1, ha2⟩ := hdims _ (getD_mem_of_lt t.shape _ h1m)
  obtain ⟨hb1, hb2⟩ := hdims _ (getD_mem_of_lt t.shape _ h2m)
  have hiff := toSizeT_lt_iff ha1 ha2 hb1 hb2
  by_cases hc : t.shape.getD (t.shape.length - 1) 0
      < t.shape.getD (t.shape.length - 2) 0
  · refine ⟨{ device := md.deviceClass, elemType := t.elemType,
              shape := t.shape.set (t.shape.length - 1) 0, data := [] },
      ?_, ?_, rfl, ?_, ?_⟩
    · simp only [CreateEmptyInput, if_neg hlen, if_pos (hiff.mpr hc)]
    · simp
    · exact elementCount_set_zero t.shape _ h1m
    · rw [if_pos hc]
  · refine ⟨{ device := md.deviceClass, elemType := t.elemType,
              shape := t.shape.set (t.shape.length - 2) 0, data := [] },
      ?_, ?_, rfl, ?_, ?_⟩
    · have : ¬ toSizeT (t.shape.getD (t.shape.length - 1) 0)
          < toSizeT (t.shape.getD (t.shape.length - 2) 0) := fun hx =>
        hc (hiff.mp hx)
      simp only [CreateEmptyInput, if_neg hlen, if_neg this]
    · simp
    · exact elementCount_set_zero t.shape _ h2m
    · rw [if_neg hc]

/-- C1 (witness): the amended theorem at the concrete reference shape
[8, 4]. -/
theorem C1_synthesize_empty_witness :
    ∃ t', CreateEmptyInput DeviceType.CPU T84 = .ok t'
      ∧ t'.shape.length = T84.shape.length
      ∧ t'.elemType = T84.elemType
      ∧ elementCount t'.shape = 0
      ∧ t'.shape =
        (if T84.shape.getD (T84.shape.length - 1) 0
            < T84.shape.getD (T84.shape.length - 2) 0
         then T84.shape.set (T84.shape.length - 1) 0
         else T84.shape.set (T84.shape.length - 2) 0) :=
  C1_synthesize_empty_amended DeviceType.CPU T84 (by decide) (by decide)

/-- C2 (counterexample): with an adapter named "n" already registered, a
config batch that declares "n" once does NOT fail with
`DuplicateAdapterName`: the load succeeds and replaces the pre-existing
registry mapping. -/
theorem C2_counterexample :
    (LoadAdaptersFromConfig REG1 [("n", FGOOD)]).2.1 = none
    ∧ (LoadAdaptersFromConfig REG1 [("n", FGOOD)]).1 ≠ REG1 := by
  decide

/-- C2 (amended): duplicate names are detected only WITHIN the config
batch. If the batch declares the same name twice, `LoadAdaptersFromConfig`
fails with `DuplicateAdapterName`, the whole batch is aborted, the
pre-existing registry mapping is left completely unchanged, and the
collision is detected before any file I/O for the duplicate entry is
attempted (only the files of the entries before the duplicate are read).
A name colliding with an already-registered adapter is not an error: a
successful load replaces the registry's contents wholesale. -/
theorem C2_load_from_config_amended (reg : AdapterMap)
    (xs : List (String × LoraFile)) (n : String) (f : LoraFile)
    (ys : List (String × LoraFile))
    (hfiles : ∀ p ∈ xs, fileLoadOk p.2 = true)
    (hnodup : (xs.map Prod.fst).Nodup)
    (hmem : n ∈ xs.map Prod.fst) :
    LoadAdaptersFromConfig reg (xs ++ (n, f) :: ys)
      = (reg, some (.DuplicateAdapterName n), xs.map Prod.snd) := by
  have hdisj : ∀ p ∈ xs, lookupAdapter ([] : AdapterMap) p.1 = none := by
    intro p _
    rfl
  have hd := loadLoop_dup xs [] n f ys hfiles hnodup hdisj (by simpa using hmem)
  rcases hq : loadLoop [] (xs ++ (n, f) :: ys) with ⟨m, e, tr⟩
  rw [hq] at hd
  obtain ⟨he, htr⟩ := hd
  simp only at he htr
  unfold LoadAdaptersFromConfig
  rw [hq, he, htr]

/-- C2 (witness): the amended theorem at a concrete batch that declares
"a" twice against a registry already holding "n". -/
theorem C2_load_from_config_witness :
    LoadAdaptersFromConfig REG1 [("a", FGOOD), ("a", FGOOD2)]
      = (REG1, some (.DuplicateAdapterName "a"), [FGOOD]) :=
  C2_load_from_config_amended REG1 [("a", FGOOD)] "a" FGOOD2 []
    (by decide) (by decide) (by decide)

/-- C3 (confirmed): for every adapter file that passes the format checks
but contains a parameter record of rank below 2, the load fails with
`InvalidShape` and the adapter's parameter list is exactly what it was
before the call. -/
theorem C3_invalid_shape_rank (a : LoraAdapter) (f : LoraFile)
    (r : ParameterRecord)
    (h1 : f.openOk = true) (h2 : f.readOk = true) (h3 : f.magicOk = true)
    (h4 : f.schemaOk = true)
    (h5 : IsLoraFormatVersionSupported f.version = true)
    (hmem : r ∈ f.records) (hr : r.shape.length < 2) :
    (a.LoadParametersFromFlatBuffer f).2 = some .InvalidShape ∧
    ((a.LoadParametersFromFlatBuffer f).1).parameters_ = a.parameters_ := by
  unfold LoraAdapter.LoadParametersFromFlatBuffer
  rw [Load_ok a.format_holder_ f h1 h2 h3 h4 h5]
  simp [extractAll_error_of_mem f.records r hmem hr]

/-- C3 (witness): the theorem at a concrete file whose single record has
rank 1, against an adapter holding a prior successful load. -/
theorem C3_invalid_shape_rank_witness :
    (A1.LoadParametersFromFlatBuffer FRANK1).2 = some .InvalidShape ∧
    ((A1.LoadParametersFromFlatBuffer FRANK1).1).parameters_ = A1.parameters_ :=
  C3_invalid_shape_rank A1 FRANK1 RREC1 rfl rfl rfl rfl (by decide)
    (by decide) (by decide)

/-- C4 (confirmed): for every readable file, the three validation steps of
`BinaryFormatHolder.Load` run in the order magic, schema, version, and each
failure short-circuits the later steps: a magic failure reports
`InvalidFormat` with neither the schema nor the version check reached, a
schema failure reports `CorruptData` with the version check not reached,
and a version failure reports `UnsupportedVersion`. -/
theorem C4_validation_order (h : BinaryFormatHolder) (f : LoraFile)
    (ho : f.openOk = true) (hr : f.readOk = true) :
    (f.magicOk = false →
      (h.Load f).2.1 = some .InvalidFormat ∧
      (h.Load f).2.2 = [.magic] ∧
      CheckStep.schema ∉ (h.Load f).2.2 ∧
      CheckStep.version ∉ (h.Load f).2.2) ∧
    (f.magicOk = true → f.schemaOk = false →
      (h.Load f).2.1 = some .CorruptData ∧
      (h.Load f).2.2 = [.magic, .schema] ∧
      CheckStep.version ∉ (h.Load f).2.2) ∧
    (f.magicOk = true → f.schemaOk = true →
      IsLoraFormatVersionSupported f.version = false →
      (h.Load f).2.1 = some .UnsupportedVersion ∧
      (h.Load f).2.2 = [.magic, .schema, .version]) := by
  refine ⟨fun hm => ?_, fun hm hs => ?_, fun hm hs hv => ?_⟩
  · rw [Load_magic_fail h f ho hr hm]
    refine ⟨rfl, rfl, ?_, ?_⟩
    · show CheckStep.schema ∉ [CheckStep.magic]
      decide
    · show CheckStep.version ∉ [CheckStep.magic]
      decide
  · rw [Load_schema_fail h f ho hr hm hs]
    refine ⟨rfl, rfl, ?_⟩
    show CheckStep.version ∉ [CheckStep.magic, CheckStep.schema]
    decide
  · rw [Load_version_fail h f ho hr hm hs hv]
    exact ⟨rfl, rfl⟩

/-- C4 (witness): the theorem at a concrete readable file that fails the
magic check (and would also fail the schema check if it were reached): only
`InvalidFormat` is reported and neither later step is reached. -/
theorem C4_validation_order_witness :
    (H0.Load FBADMAGIC).2.1 = some .InvalidFormat ∧
    (H0.Load FBADMAGIC).2.2 = [.magic] ∧
    CheckStep.schema ∉ (H0.Load FBADMAGIC).2.2 ∧
    CheckStep.version ∉ (H0.Load FBADMAGIC).2.2 :=
  (C4_validation_order H0 FBADMAGIC rfl rfl).1 rfl

/-- C5 (counterexample): the error raised for a tensor resident on a third
device class names the TARGET device type, not the offending residency
class: with target `CUDA` and an FPGA-resident tensor the error carries
`CUDA`, whose device class GPU is not the offending class FPGA. Moreover
reuse is limited to the `CUDA` target: a `DML` target with a tensor already
resident on its own device class (GPU) fails instead of returning the same
instance. -/
theorem C5_counterexample :
    MakeDeviceCopyIfNeeded DeviceType.CUDA PFPGA
        = .error (.UnsupportedDevicePlacement DeviceType.CUDA)
    ∧ DeviceType.deviceClass DeviceType.CUDA ≠ OrtMemoryInfoDeviceType.FPGA
    ∧ MakeDeviceCopyIfNeeded DeviceType.DML PGPU
        = .error (.UnsupportedDevicePlacement DeviceType.DML) := by
  decide

/-- C5 (amended): for every accelerator (non-CPU) target,
`MakeDeviceCopyIfNeeded` returns the very same tensor instance exactly when
the target is `CUDA` and the supplied tensor is GPU-resident; it returns a
freshly allocated device tensor with bit-identical contents when the
supplied tensor is host-resident; and for any other residency it fails with
`UnsupportedDevicePlacement` naming the TARGET device type (not the
offending residency class). -/
theorem C5_make_device_copy_amended (target : DeviceType) (p : LoraParam)
    (ht : target ≠ DeviceType.CPU) :
    (target = DeviceType.CUDA →
      p.ort_user_supplied_value_.device = OrtMemoryInfoDeviceType.GPU →
      MakeDeviceCopyIfNeeded target p
        = .ok (.reused p.ort_user_supplied_value_)) ∧
    (p.ort_user_supplied_value_.device = OrtMemoryInfoDeviceType.CPU →
      MakeDeviceCopyIfNeeded target p
        = .ok (.copied
            { p.ort_user_supplied_value_ with device := target.deviceClass })) ∧
    (p.ort_user_supplied_value_.device ≠ OrtMemoryInfoDeviceType.CPU →
      ¬(target = DeviceType.CUDA ∧
        p.ort_user_supplied_value_.device = OrtMemoryInfoDeviceType.GPU) →
      MakeDeviceCopyIfNeeded target p
        = .error (.UnsupportedDevicePlacement target)) := by
  refine ⟨fun h1 h2 => ?_, fun h1 => ?_, fun h1 h2 => ?_⟩
  · simp [MakeDeviceCopyIfNeeded, ht, h1, h2]
  · have hne : ¬(target = DeviceType.CUDA ∧
        p.ort_user_supplied_value_.device = OrtMemoryInfoDeviceType.GPU) := by
      rintro ⟨-, hg⟩
      rw [h1] at hg
      cases hg
    simp [MakeDeviceCopyIfNeeded, CopyToDevice, ht, h1, hne]
  · simp [MakeDeviceCopyIfNeeded, ht, h1, h2]

/-- C5 (witness): the amended theorem at a concrete accelerator target with
a host-resident parameter: a fresh copy on the target's device class with
identical contents. -/
theorem C5_make_device_copy_witness :
    MakeDeviceCopyIfNeeded DeviceType.DML PHOST
      = .ok (.copied
          { PHOST.ort_user_supplied_value_ with
            device := DeviceType.deviceClass DeviceType.DML }) :=
  (C5_make_device_copy_amended DeviceType.DML PHOST (by decide)).2.1 rfl

/-- C6 (confirmed): when the target device is CPU, `MakeDeviceCopyIfNeeded`
is the identity: it returns the supplied tensor instance unchanged with no
copy, regardless of the tensor's current device residency. -/
theorem C6_cpu_identity (p : LoraParam) :
    MakeDeviceCopyIfNeeded DeviceType.CPU p
      = .ok (.reused p.ort_user_supplied_value_) := rfl

/-- C7 (confirmed): `LoadParametersFromFlatBuffer` replaces the adapter's
parameter list by a single swap after all records have been extracted: on
any failure the previous parameter list is exactly as it was before the
call, and on success the new list is exactly the extraction of the file's
records — a replacement determined by the file alone, not an append to the
previous list. -/
theorem C7_atomic_swap (a : LoraAdapter) (f : LoraFile) :
    ((a.LoadParametersFromFlatBuffer f).2 ≠ none →
      ((a.LoadParametersFromFlatBuffer f).1).parameters_ = a.parameters_) ∧
    ((a.LoadParametersFromFlatBuffer f).2 = none →
      extractAll f.records
        = .ok (((a.LoadParametersFromFlatBuffer f).1).parameters_)) := by
  rcases lpffb_cases a f with ⟨h1, h2⟩ | ⟨h1, h2⟩
  · exact ⟨fun _ => h2, fun hc => absurd hc h1⟩
  · exact ⟨fun hc => absurd h1 hc, fun _ => h2⟩

/-- C7 (witness): the theorem's failure branch at a concrete failing file,
against an adapter holding a prior load: the parameter list is unchanged. -/
theorem C7_atomic_swap_witness :
    ((A1.LoadParametersFromFlatBuffer FBADMAGIC).1).parameters_
      = A1.parameters_ :=
  (C7_atomic_swap A1 FBADMAGIC).1 (by decide)

/-- C8 (confirmed): a config batch that declares the same adapter name
twice fails with `DuplicateAdapterName`, the registry's visible contents
are unchanged, and `GetAdapter` on a name the registry did not previously
hold still fails with `UnknownAdapter` — no partially-registered adapter
from the failed batch is observable. -/
theorem C8_duplicate_in_batch (reg : AdapterMap)
    (xs : List (String × LoraFile)) (n : String) (f : LoraFile)
    (ys : List (String × LoraFile))
    (hfiles : ∀ p ∈ xs, fileLoadOk p.2 = true)
    (hnodup : (xs.map Prod.fst).Nodup)
    (hmem : n ∈ xs.map Prod.fst)
    (hreg : lookupAdapter reg n = none) :
    (LoadAdaptersFromConfig reg (xs ++ (n, f) :: ys)).2.1
        = some (.DuplicateAdapterName n) ∧
    (LoadAdaptersFromConfig reg (xs ++ (n, f) :: ys)).1 = reg ∧
    GetAdapter (LoadAdaptersFromConfig reg (xs ++ (n, f) :: ys)).1 n
        = .error .UnknownAdapter := by
  have hdisj : ∀ p ∈ xs, lookupAdapter ([] : AdapterMap) p.1 = none := by
    intro p _
    rfl
  have hd := loadLoop_dup xs [] n f ys hfiles hnodup hdisj (by simpa using hmem)
  rcases hq : loadLoop [] (xs ++ (n, f) :: ys) with ⟨m, e, tr⟩
  rw [hq] at hd
  obtain ⟨he, htr⟩ := hd
  simp only at he htr
  unfold LoadAdaptersFromConfig
  rw [hq, he]
  exact ⟨rfl, rfl, by unfold GetAdapter; rw [hreg]⟩

/-- C8 (witness): the theorem at a concrete batch declaring "a" twice into
a previously empty registry: the load fails, the registry stays empty, and
`GetAdapter` on "a" fails with `UnknownAdapter`. -/
theorem C8_duplicate_in_batch_witness :
    (LoadAdaptersFromConfig [] [("a", FGOOD), ("a", FGOOD2)]).2.1
        = some (.DuplicateAdapterName "a") ∧
    (LoadAdaptersFromConfig [] [("a", FGOOD), ("a", FGOOD2)]).1 = [] ∧
    GetAdapter (LoadAdaptersFromConfig [] [("a", FGOOD), ("a", FGOOD2)]).1 "a"
        = .error .UnknownAdapter :=
  C8_duplicate_in_batch [] [("a", FGOOD)] "a" FGOOD2 []
    (by decide) (by decide) (by decide) rfl

/-- C9 (confirmed): for every valid container file, loading and then
reading the parameters yields exactly one parameter per record of the file,
in file order, carrying the record's name, element type, shape and bytes. -/
theorem C9_parameters_file_order (a : LoraAdapter) (f : LoraFile)
    (hf : fileLoadOk f = true) :
    (a.LoadParametersFromFlatBuffer f).2 = none ∧
    ((a.LoadParametersFromFlatBuffer f).1).parameters_
      = expectedParams f.records := by
  rw [lpffb_ok a f hf]
  exact ⟨rfl, rfl⟩

/-- C9 (witness): the theorem at a concrete valid file with one record. -/
theorem C9_parameters_file_order_witness :
    (A1.LoadParametersFromFlatBuffer FGOOD).2 = none ∧
    ((A1.LoadParametersFromFlatBuffer FGOOD).1).parameters_
      = expectedParams FGOOD.records :=
  C9_parameters_file_order A1 FGOOD (by decide)

/-- C10 (confirmed): after a successful bulk config load the registry
contains exactly the adapters named in the config, in config order; any
name absent from the config — including every previously registered
adapter — is no longer present: the operation replaces the registry's
contents wholesale. -/
theorem C10_wholesale_replacement (reg : AdapterMap)
    (cfg : List (String × LoraFile))
    (hfiles : ∀ p ∈ cfg, fileLoadOk p.2 = true)
    (hnodup : (cfg.map Prod.fst).Nodup) :
    (LoadAdaptersFromConfig reg cfg).2.1 = none ∧
    (LoadAdaptersFromConfig reg cfg).1
      = cfg.map (fun p => (p.1, loadedAdapter p.1 p.2)) ∧
    ∀ m, m ∉ cfg.map Prod.fst →
      lookupAdapter (LoadAdaptersFromConfig reg cfg).1 m = none := by
  have hdisj : ∀ p ∈ cfg, lookupAdapter ([] : AdapterMap) p.1 = none := by
    intro p _
    rfl
  have hok := loadLoop_ok cfg [] hfiles hnodup hdisj
  unfold LoadAdaptersFromConfig
  rw [hok]
  simp only [List.nil_append]
  refine ⟨trivial, trivial, fun m hm => ?_⟩
  rw [lookupAdapter_eq_none_iff]
  simpa using hm

/-- C10 (witness): the theorem at a concrete registry holding "old" and a
config declaring only "new": after the load, "old" is gone. -/
theorem C10_wholesale_replacement_witness :
    lookupAdapter (LoadAdaptersFromConfig REGOLD [("new", FGOOD)]).1 "old"
      = none :=
  (C10_wholesale_replacement REGOLD [("new", FGOOD)]
    (by decide) (by decide)).2.2 "old" (by decide)

end Generators
